import Mathlib

/-!
Formal model of the `sqy-mumbai-poc` data-preparation scripts
(`scripts/preprocess_metrics.py`, `scripts/make_dims.py`,
`scripts/geo_validator.py`), as a shallow embedding.

Modelling conventions:
* Python floats are modelled as exact rationals (`ℚ`); `float(s)` on a
  decimal literal is modelled by its exact decimal value (binary rounding
  and overflow of huge exponents to infinity are not modelled; literal
  `inf`/`nan` spellings are handled below exactly where the scripts
  care about them).
* Python ints are modelled as `ℤ`, CSV rows / JSON property maps as
  association lists of strings, Python dicts keyed by strings as
  association lists with last-binding-wins lookup, Python sets as `Finset`.
* A Python function that can raise an uncaught exception is modelled as
  returning `Except String`, an uncaught exception being `.error`.
-/

namespace SqyPoc

deriving instance DecidableEq for Except

/-- The whitespace characters `str.strip()` / `int` / `float` remove. -/
def isPyWs (c : Char) : Bool :=
  c = ' ' || c = '\t' || c = '\n' || c = '\r' || c = '\x0b' || c = '\x0c'

/-- Python `s.strip()` on the character list of a string. -/
def pyStrip (cs : List Char) : List Char :=
  ((cs.dropWhile isPyWs).reverse.dropWhile isPyWs).reverse

/-- Value of a decimal digit list, most significant digit first. -/
def natVal (cs : List Char) : Nat :=
  cs.foldl (fun a c => a * 10 + (c.toNat - '0'.toNat)) 0

/-- Parse a nonempty all-digit character list; `none` otherwise. -/
def parseDigits (cs : List Char) : Option Nat :=
  if cs.isEmpty then none
  else if cs.all Char.isDigit then some (natVal cs) else none

/-- Model of Python `int(s)` for a string argument: surrounding whitespace
is stripped, an optional sign is allowed, the remainder must be a nonempty
digit string.  `none` models `ValueError`.  (Underscore digit separators
are not modelled.) -/
def pyInt? (s : String) : Option Int :=
  match pyStrip s.data with
  | '+' :: rest => (parseDigits rest).map (fun k => (k : Int))
  | '-' :: rest => (parseDigits rest).map (fun k => -(k : Int))
  | cs => (parseDigits cs).map (fun k => (k : Int))

/-- Exponent suffix of a float literal: empty, or `e`/`E` followed by an
optionally signed digit string; multiplies `base` by the power of ten. -/
def parseExpSuffix (base : ℚ) (cs : List Char) : Option ℚ :=
  match cs with
  | [] => some base
  | 'e' :: rest | 'E' :: rest =>
    match rest with
    | '+' :: ds => (parseDigits ds).map (fun k => base * (10 : ℚ) ^ (k : ℤ))
    | '-' :: ds => (parseDigits ds).map (fun k => base * (10 : ℚ) ^ (-(k : Int)))
    | ds => (parseDigits ds).map (fun k => base * (10 : ℚ) ^ (k : ℤ))
  | _ => none

/-- Unsigned decimal float literal: `digits`, `digits.`, `.digits` or
`digits.digits`, each with an optional exponent suffix. -/
def parseDec (cs : List Char) : Option ℚ :=
  let intPart := cs.takeWhile Char.isDigit
  let rest := cs.dropWhile Char.isDigit
  match rest with
  | '.' :: rest2 =>
    let frac := rest2.takeWhile Char.isDigit
    let rest3 := rest2.dropWhile Char.isDigit
    if intPart.isEmpty && frac.isEmpty then none
    else
      parseExpSuffix ((natVal intPart : ℚ) + (natVal frac : ℚ) / (10 : ℚ) ^ frac.length) rest3
  | _ =>
    if intPart.isEmpty then none
    else parseExpSuffix (natVal intPart : ℚ) rest

/-- Model of `float(s)` restricted to finite results, which is the only way
`preprocess_metrics.f2` uses it: a finite decimal literal parses to its
exact rational value, everything else (including the `inf`/`infinity`/`nan`
spellings, which `float` accepts but `isfinite` then rejects) gives `none`. -/
def pyFloatFinite? (s : String) : Option ℚ :=
  match pyStrip s.data with
  | '+' :: rest => parseDec rest
  | '-' :: rest => (parseDec rest).map Neg.neg
  | cs => parseDec cs

/-! ## `scripts/preprocess_metrics.py` — the metrics aggregator -/

/-- The slice of one metric-CSV row that the aggregator reads for a key:
`SampleSize` via `row.get` (so `none` models both a missing column and
Python `None`) and the metric value column (`MedianAskingPrice` /
`MedianRegisteredPrice` / `MedianMonthlyRent`). -/
structure MetricRow where
  sampleSize : Option String
  value : Option String
deriving DecidableEq, Repr

/-- `f2` (preprocess_metrics.py lines 18-22): `float(x)` guarded by
`try/except` and `isfinite`; any failure (including `x` being `None`)
gives `None`. -/
def f2 (v : Option String) : Option ℚ :=
  match v with
  | none => none
  | some s => pyFloatFinite? s

/-- The metric value the aggregator extracts for one metric at one key
(lines 55-57): `f2(row[valueColumn]) if row else None`. -/
def metricVal (r : Option MetricRow) : Option ℚ :=
  r.bind (fun row => f2 row.value)

/-- Sample-size extraction (lines 51-53):
`int(r["SampleSize"]) if r and r.get("SampleSize") else 0`.
A missing row, a missing field and an empty string are falsy and give `0`;
a nonempty unparseable field reaches `int(...)`, which raises
`ValueError` — modelled as `.error`. -/
def sampleCountE (r : Option MetricRow) : Except String Int :=
  match r with
  | none => .ok 0
  | some row =>
    match row.sampleSize with
    | none => .ok 0
    | some s =>
      if s = "" then .ok 0
      else
        match pyInt? s with
        | some k => .ok k
        | none => .error ("ValueError: invalid literal for int: " ++ s)

/-- `int(loc_id)` (lines 61, 64, 66, 68, 71). -/
def intE (s : String) : Except String Int :=
  match pyInt? s with
  | some k => .ok k
  | none => .error ("ValueError: invalid literal for int: " ++ s)

/-- One summary JSON object (lines 70-75). -/
structure Summary where
  month : String
  asset : String
  bhk : String
  localityId : Int
  medianAsking : Option ℚ
  medianRegistered : Option ℚ
  medianRent : Option ℚ
  yld : Option ℚ
  countAsking : Int
  countRegistered : Int
  countRent : Int
deriving DecidableEq, Repr

/-- Everything the aggregator emits for one key: the summary record and,
for each of the four choropleth metrics, the value of the point appended
to that metric's paint array (`none` when no point is emitted). -/
structure KeyOutput where
  summary : Summary
  yieldPoint : Option ℚ
  askingPoint : Option ℚ
  registeredPoint : Option ℚ
  rentPoint : Option ℚ
deriving DecidableEq, Repr

/-- Paint gate for asking/registered/rent (lines 63-68):
`if v and cnt >= args.min_sample: append {...,"value": v}` —
Python float truthiness makes `0.0` (and `None`) falsy. -/
def paintIf (v : Option ℚ) (cnt minSample : Int) : Option ℚ :=
  match v with
  | none => none
  | some q => if q ≠ 0 ∧ cnt ≥ minSample then some q else none

/-- Yield paint gate and value (lines 59-61):
`if vR and vR > 0 and vN and nR >= ms and nN >= ms: y = 12.0 * vN / vR`. -/
def yieldPaintVal (vR vN : Option ℚ) (nR nN minSample : Int) : Option ℚ :=
  match vR, vN with
  | some pr, some rn =>
    if pr ≠ 0 ∧ pr > 0 ∧ rn ≠ 0 ∧ nR ≥ minSample ∧ nN ≥ minSample then
      some (12 * rn / pr)
    else none
  | _, _ => none

/-- Summary yield (line 73):
`(12.0 * vN / vR) if (vR and vR > 0 and vN) else None` —
note: no sample-size condition here, unlike the paint gate. -/
def summaryYieldVal (vR vN : Option ℚ) : Option ℚ :=
  match vR, vN with
  | some pr, some rn =>
    if pr ≠ 0 ∧ pr > 0 ∧ rn ≠ 0 then some (12 * rn / pr) else none
  | _, _ => none

/-- The pure part of the per-key body once all `int(...)` calls succeeded. -/
def mkOutput (minSample : Int) (month asset bhk : String) (lid nA nR nN : Int)
    (vA vR vN : Option ℚ) : KeyOutput :=
  { summary :=
      { month := month, asset := asset, bhk := bhk, localityId := lid
        medianAsking := vA, medianRegistered := vR, medianRent := vN
        yld := summaryYieldVal vR vN
        countAsking := nA, countRegistered := nR, countRent := nN }
    yieldPoint := yieldPaintVal vR vN nR nN minSample
    askingPoint := paintIf vA nA minSample
    registeredPoint := paintIf vR nR minSample
    rentPoint := paintIf vN nN minSample }

/-- The aggregator's per-key body (preprocess_metrics.py lines 46-79) for key
`(month, asset, bhk, locId)` with looked-up rows `a`, `r`, `n`.  The three
`SampleSize` parses run first (lines 51-53) and `int(loc_id)` runs on every
key via the summary (line 71); a `ValueError` in any of them aborts the
run. -/
def processKey (minSample : Int) (month asset bhk locId : String)
    (a r n : Option MetricRow) : Except String KeyOutput :=
  match sampleCountE a, sampleCountE r, sampleCountE n, intE locId with
  | .error e, _, _, _ => .error e
  | .ok _, .error e, _, _ => .error e
  | .ok _, .ok _, .error e, _ => .error e
  | .ok _, .ok _, .ok _, .error e => .error e
  | .ok nA, .ok nR, .ok nN, .ok lid =>
    .ok (mkOutput minSample month asset bhk lid nA nR nN
      (metricVal a) (metricVal r) (metricVal n))

/-- One row of a metric CSV, as the aggregator reads it: the four key
columns (kept as the raw strings `to_key` uses, line 15-16) plus the
`SampleSize` and metric value columns. -/
structure CsvRow where
  month : String
  assetType : String
  bhk : String
  localityId : String
  sampleSize : Option String
  value : Option String
deriving DecidableEq, Repr

/-- Join key `(Month, AssetType, BHK, LocalityID)` (line 15-16). -/
abbrev MKey := String × String × String × String

/-- `to_key(row)` (line 15-16). -/
def toKey (r : CsvRow) : MKey := (r.month, r.assetType, r.bhk, r.localityId)

/-- The per-metric slice of a CSV row. -/
def toMetricRow (r : CsvRow) : MetricRow := ⟨r.sampleSize, r.value⟩

/-- The dicts `A`, `R`, `N` (lines 39-41): `{ to_key(r): r for r in rows }`,
so for duplicate keys the last row wins; `mapLookup` is `dict.get`. -/
def mapLookup (rows : List CsvRow) (k : MKey) : Option CsvRow :=
  rows.reverse.find? (fun r => toKey r = k)

/-- `keys = set(A) | set(R) | set(N)` (line 43), as a duplicate-free list;
only membership in it is ever used below. -/
def unionKeys (ask reg rent : List CsvRow) : List MKey :=
  ((ask ++ reg ++ rent).map toKey).dedup

/-- The whole per-key body of the aggregator run for one key of the union
(lines 46-79): look the key up in the three dicts and process it. -/
def aggregateKey (minSample : Int) (ask reg rent : List CsvRow) (k : MKey) :
    Except String KeyOutput :=
  processKey minSample k.1 k.2.1 k.2.2.1 k.2.2.2
    ((mapLookup ask k).map toMetricRow)
    ((mapLookup reg k).map toMetricRow)
    ((mapLookup rent k).map toMetricRow)

/-! ## `scripts/make_dims.py` — the dimension builder

The builder is modelled from the parsed CSV rows onward (the byte-level
encoding fallback chain of `read_csv_any` is a deterministic function of
the file bytes and is out of the modelled slice).  The four `list.sort`
calls are modelled by their CPython specification — a stable sort by the
given key — as the relation `IsStableSortBy`; everything else is a
function. -/

/-- One `csv.DictReader` row: an association list from header name to cell
text (header names are unique, so first-match lookup is dict lookup). -/
abbrev Row := List (String × String)

/-- Dict lookup `d[k]` / `k in d` on a row. -/
def rowGet (r : Row) (k : String) : Option String :=
  (r.find? (fun p => p.1 = k)).map (fun p => p.2)

/-- `get_first(d, keys, cast=...)` (make_dims.py lines 41-51): try the
candidate column names in order; a present value with nonempty `strip()`
is passed to `cast`; a cast failure moves on to the next candidate; the
`default` of the Python signature is applied by each call site below. -/
def getFirst {α : Type} (d : Row) (keys : List String) (cast : String → Option α) :
    Option α :=
  match keys with
  | [] => none
  | k :: ks =>
    match rowGet d k with
    | none => getFirst d ks cast
    | some v =>
      if pyStrip v.data = [] then getFirst d ks cast
      else
        match cast v with
        | some c => some c
        | none => getFirst d ks cast

/-- A `{code, label}` entry of the `bhk` or `assets` output lists. -/
structure CodeEntry where
  code : String
  label : String
deriving DecidableEq, Repr

/-- One row of the BHK loop (lines 82-85); rows whose code resolves to
`None` are dropped, the label defaults to the code. -/
def bhkEntryOf (r : Row) : Option CodeEntry :=
  match getFirst r ["code", "CODE", "BHK", "bhk", "bhk_code"] some with
  | none => none
  | some c =>
    some ⟨c, (getFirst r ["label", "LABEL", "name", "display", "BHKLabel"] some).getD c⟩

def bhkEntries (rows : List Row) : List CodeEntry := rows.filterMap bhkEntryOf

/-- One row of the asset-type loop (lines 90-93). -/
def assetEntryOf (r : Row) : Option CodeEntry :=
  match getFirst r ["code", "CODE", "AssetType", "ASSETTYPE", "asset", "asset_code"] some with
  | none => none
  | some c =>
    some ⟨c, (getFirst r ["label", "LABEL", "name", "display", "AssetTypeName"]
      some).getD c⟩

def assetEntries (rows : List Row) : List CodeEntry := rows.filterMap assetEntryOf

/-- The single `city` record (lines 97-107). -/
structure CityEntry where
  cityId : Int
  cityName : String
  centerLon : ℚ
  centerLat : ℚ
  zoom : ℚ
deriving DecidableEq, Repr

/-- Python `x or default` on an optional number: `None` and `0` are falsy. -/
def pyOrQ (v : Option ℚ) (d : ℚ) : ℚ :=
  match v with
  | none => d
  | some q => if q = 0 then d else q

/-- `name and name.strip().lower() == "mumbai"` (line 102). -/
def mumbaiName (v : Option String) : Bool :=
  match v with
  | none => false
  | some s => (pyStrip s.data).map Char.toLower = "mumbai".data

/-- The city loop (lines 98-107): first row whose id parses and whose name
is "mumbai" (case/space-insensitively) or whose id is 13 wins; missing or
zero center/zoom fields fall back to the Mumbai defaults. -/
def cityOf : List Row → Option CityEntry
  | [] => none
  | r :: rest =>
    match getFirst r ["CityID", "CITYID", "cityid"] pyInt? with
    | none => cityOf rest
    | some cid =>
      let name := getFirst r ["CityName", "CITYNAME", "cityname", "name"] some
      if mumbaiName name ∨ cid = 13 then
        some { cityId := cid
               cityName := name.getD "Mumbai"
               centerLon := pyOrQ (getFirst r ["CenterLon", "center_lon", "lon", "LON"]
                 pyFloatFinite?) (72.8777 : ℚ)
               centerLat := pyOrQ (getFirst r ["CenterLat", "center_lat", "lat", "LAT"]
                 pyFloatFinite?) (19.0760 : ℚ)
               zoom := pyOrQ (getFirst r ["Zoom", "zoom"] pyFloatFinite?) 10 }
      else cityOf rest

/-- A micro-market output record (`norm_mm`, lines 53-58). -/
structure MmEntry where
  id : Int
  name : String
  cityId : Option Int
deriving DecidableEq, Repr

def mmEntryOf (r : Row) : Option MmEntry :=
  match getFirst r ["MicroMarketID", "MICROMARKETID", "locationid", "LocationID", "LOC_ID"]
      pyInt? with
  | none => none
  | some i =>
    some ⟨i, (getFirst r ["MicroMarketName", "MICROMARKETNAME", "locationname",
        "LocationName", "NAME"] some).getD "(Unnamed)",
      getFirst r ["CityID", "CITYID", "cityid"] pyInt?⟩

/-- The micro-market loop (lines 110-115), dropping id-less rows. -/
def mmEntries (rows : List Row) : List MmEntry := rows.filterMap mmEntryOf

/-- `mm_name_by_id` (line 115), in insertion order; lookup is last-wins. -/
def mmNameById (rows : List Row) : List (Int × String) :=
  (mmEntries rows).map (fun m => (m.id, m.name))

/-- Python dict lookup on an insertion-ordered association list: the last
binding of a key wins. -/
def dictLookupLast {α β : Type} [DecidableEq α] (l : List (α × β)) (k : α) : Option β :=
  (l.reverse.find? (fun p => p.1 = k)).map (fun p => p.2)

/-- A locality output record (`norm_loc`, lines 60-68).  The
`microMarketName` key is only present (`some _`) when the micro-market
name dict is nonempty and the row's micro-market id resolved; its value
may still be `None` (`some none`) when that id has no name. -/
structure LocEntry where
  id : Int
  name : String
  cityId : Option Int
  microMarketId : Option Int
  microMarketName : Option (Option String)
deriving DecidableEq, Repr

def locEntryOf (nameMap : List (Int × String)) (r : Row) : Option LocEntry :=
  match getFirst r ["LocalityID", "LOCALITYID", "sublocationid", "SubLocationID"]
      pyInt? with
  | none => none
  | some i =>
    let mmId := getFirst r ["MicroMarketID", "MICROMARKETID", "locationid", "LocationID"]
      pyInt?
    some ⟨i,
      (getFirst r ["LocalityName", "LOCALITYNAME", "sublocationname", "SubLocationName",
        "NAME"] some).getD ("Locality " ++ toString i),
      getFirst r ["CityID", "CITYID", "cityid"] pyInt?,
      mmId,
      match nameMap, mmId with
      | [], _ => none
      | _ :: _, none => none
      | _ :: _, some m => some (dictLookupLast nameMap m)⟩

/-- The locality loop (lines 120-123), dropping id-less rows. -/
def locEntries (rows : List Row) (nameMap : List (Int × String)) : List LocEntry :=
  rows.filterMap (locEntryOf nameMap)

/-- The parsed contents of the five master CSVs. -/
structure DimsInput where
  bhkRows : List Row
  astRows : List Row
  cityRows : List Row
  mmRows : List Row
  locRows : List Row
deriving Repr

/-- The `dims` document (lines 126-132). -/
structure DimsDoc where
  bhk : List CodeEntry
  assets : List CodeEntry
  city : Option CityEntry
  micromarkets : List MmEntry
  localities : List LocEntry
deriving DecidableEq, Repr

/-- The lexicographic tie-break relation a stable sort by `key` realises on
positions of `l`: position `i` comes before `j` when `i`'s key is strictly
smaller, or the keys are equal and `i` is the earlier original position. -/
@[reducible] def stRel {α K : Type} (klt : K → K → Prop) (key : α → K) (dflt : α) (l : List α)
    (i j : Nat) : Prop :=
  klt (key (l.getD i dflt)) (key (l.getD j dflt)) ∨
    (key (l.getD i dflt) = key (l.getD j dflt) ∧ i < j)

/-- `out` is a stable sort of `l` by `key` under the strict order `klt`:
some listing `idxs` of all positions of `l` is ordered by `(key, position)`
lexicographically — non-decreasing keys, original relative order on equal
keys, which is exactly CPython's guarantee for `list.sort(key=...)` — and
`out` reads the elements off in that order. -/
def IsStableSortBy {α K : Type} (klt : K → K → Prop) (key : α → K) (dflt : α)
    (l out : List α) : Prop :=
  ∃ idxs : List Nat,
    idxs.Perm (List.range l.length) ∧
    List.Pairwise (stRel klt key dflt l) idxs ∧
    out = idxs.map (fun i => l.getD i dflt)

/-- Python's `<` on strings: strict lexicographic comparison of the code
point sequences. -/
def charListLt : List Char → List Char → Prop
  | [], [] => False
  | [], _ :: _ => True
  | _ :: _, [] => False
  | a :: as, b :: bs => a < b ∨ (a = b ∧ charListLt as bs)

instance charListLtDec : (a b : List Char) → Decidable (charListLt a b)
  | [], [] => isFalse (fun h => h)
  | [], _ :: _ => isTrue trivial
  | _ :: _, [] => isFalse (fun h => h)
  | a :: as, b :: bs =>
    have : Decidable (charListLt as bs) := charListLtDec as bs
    inferInstanceAs (Decidable (a < b ∨ (a = b ∧ charListLt as bs)))

/-- Strict order on the `(code is None, str(code))` sort key of lines 86
and 94; kept entries all have a code, so only the string matters. -/
@[reducible] def strLt (a b : List Char) : Prop := charListLt a b

/-- Strict lexicographic order on the `(cityId or 0, name)` sort keys of
lines 116 and 124. -/
@[reducible] def pairLt (a b : Int × List Char) : Prop :=
  a.1 < b.1 ∨ (a.1 = b.1 ∧ charListLt a.2 b.2)

def codeSortKey (e : CodeEntry) : List Char := e.code.data

def mmSortKey (m : MmEntry) : Int × List Char := (m.cityId.getD 0, m.name.data)

def locSortKey (e : LocEntry) : Int × List Char := (e.cityId.getD 0, e.name.data)

/-- `main()` of make_dims.py (lines 70-136) relates a parsed input to an
output document: each list is the stable sort of the loop's output in its
source order, and the city record is the selection function's value.  The
written JSON bytes are a function of this document (fixed key order,
`json.dump` with fixed options), so two outputs of this relation for one
input serialize to identical bytes exactly when they are equal. -/
def BuildsDims (inp : DimsInput) (out : DimsDoc) : Prop :=
  IsStableSortBy strLt codeSortKey ⟨"", ""⟩ (bhkEntries inp.bhkRows) out.bhk ∧
  IsStableSortBy strLt codeSortKey ⟨"", ""⟩ (assetEntries inp.astRows) out.assets ∧
  out.city = cityOf inp.cityRows ∧
  IsStableSortBy pairLt mmSortKey ⟨0, "", none⟩ (mmEntries inp.mmRows) out.micromarkets ∧
  IsStableSortBy pairLt locSortKey ⟨0, "", none, none, none⟩
    (locEntries inp.locRows (mmNameById inp.mmRows)) out.localities

/-! ## `scripts/geo_validator.py` -/

/-- `(min lons, min lats, max lons, max lats)` as `(w, s, e, n)`. -/
abbrev BBox := ℚ × ℚ × ℚ × ℚ

/-- A GeoJSON geometry, restricted to the shape `bbox_of_geom` inspects:
its type tag and coordinate arrays.  `unsupported` stands for any other
type tag (including the empty dict `{}` that `ft.get("geometry", {})`
yields for a missing key). -/
inductive Geom
  | point (lon lat : ℚ)
  | lineString (cs : List (ℚ × ℚ))
  | multiLineString (ls : List (List (ℚ × ℚ)))
  | polygon (rings : List (List (ℚ × ℚ)))
  | multiPolygon (ps : List (List (List (ℚ × ℚ))))
  | unsupported
deriving DecidableEq, Repr

/-- A GeoJSON feature as the validator reads it: its `properties` dict
(values kept as strings; `none` models a missing `properties` key) and its
`geometry` (`none` models a missing `geometry` key). -/
structure Feature where
  properties : Option Row
  geometry : Option Geom
deriving DecidableEq, Repr

/-- Bounding box of a point list: `min`/`max` over the coordinates;
`none` for the empty list, where Python `min([])` raises `ValueError`. -/
def ptsBBox : List (ℚ × ℚ) → Option BBox
  | [] => none
  | p :: ps =>
    some (ps.foldl (fun (b : BBox) q =>
      (min b.1 q.1, min b.2.1 q.2, max b.2.2.1 q.1, max b.2.2.2 q.2))
      (p.1, p.2, p.1, p.2))

/-- `bbox_of_geom` (geo_validator.py lines 20-36): `.ok none` models the
`return None` for unsupported types, `.error` the `IndexError` of
`coordinates[0]` / `ring[0]` on an empty list and the `ValueError` of
`min([])`. -/
def bboxE : Geom → Except String (Option BBox)
  | .unsupported => .ok none
  | .point lon lat => .ok (some (lon, lat, lon, lat))
  | .lineString cs =>
    match ptsBBox cs with
    | some b => .ok (some b)
    | none => .error "ValueError: min() arg is an empty sequence"
  | .multiLineString ls =>
    match ptsBBox ls.flatten with
    | some b => .ok (some b)
    | none => .error "ValueError: min() arg is an empty sequence"
  | .polygon rings =>
    match rings with
    | [] => .error "IndexError: list index out of range"
    | ring0 :: _ =>
      match ptsBBox ring0 with
      | some b => .ok (some b)
      | none => .error "ValueError: min() arg is an empty sequence"
  | .multiPolygon ps =>
    if ps.any List.isEmpty then .error "IndexError: list index out of range"
    else
      match ptsBBox ((ps.map (fun p => p.headD [])).flatten) with
      | some b => .ok (some b)
      | none => .error "ValueError: min() arg is an empty sequence"

/-- `point_in_bbox` (lines 44-46). -/
def inBBox (c : ℚ × ℚ) (b : BBox) : Bool :=
  decide (b.1 ≤ c.1) && decide (c.1 ≤ b.2.2.1) &&
    (decide (b.2.1 ≤ c.2) && decide (c.2 ≤ b.2.2.2))

/-- The blocking errors the validator collects. -/
inductive VError
  | missingFile (name : String)
  | missingProps (layer : String) (idx : Nat) (missing : List String)
  | dupId (layer : String) (keyProp : String) (idVal : String)
  | unknownMM (locId : String) (mmId : String)
deriving DecidableEq, Repr

/-- The advisory warnings the validator collects. -/
inductive VWarn
  | outOfRange (layer : String) (idx : Nat) (b : BBox)
  | centroidOutsideCity (locId : String)
  | centroidOutsideMM (locId : String) (mmId : String)
deriving DecidableEq, Repr

/-- Accumulator of the per-layer loop (lines 69-89): the global `errors`
and `warnings` lists plus this layer's `ids` set. -/
structure LayerState where
  errors : List VError
  warnings : List VWarn
  ids : Finset String
deriving DecidableEq

/-- One iteration of the per-layer feature loop (lines 75-88): collect the
missing required properties and on any, record one blocking error and
`continue` — without touching `ids`; otherwise flag a duplicate id, add
the id, and compute the bbox range warning.  A `keyProp` absent from a
prop-complete feature models the `KeyError` of `props[key_prop]`. -/
def layerStep (layer : String) (need : List String) (keyProp : String) (i : Nat)
    (ft : Feature) (st : LayerState) : Except String LayerState :=
  let props := ft.properties.getD []
  let missing := need.filter (fun p => (rowGet props p).isNone)
  if missing ≠ [] then
    .ok ⟨st.errors ++ [.missingProps layer i missing], st.warnings, st.ids⟩
  else
    match rowGet props keyProp with
    | none => .error ("KeyError: " ++ keyProp)
    | some idv =>
      let errs := if idv ∈ st.ids then st.errors ++ [.dupId layer keyProp idv]
        else st.errors
      let ids := insert idv st.ids
      match ft.geometry with
      | none => .ok ⟨errs, st.warnings, ids⟩
      | some g =>
        match bboxE g with
        | .error e => .error e
        | .ok none => .ok ⟨errs, st.warnings, ids⟩
        | .ok (some b) =>
          if (-180 ≤ b.1 ∧ b.1 ≤ 180) ∧ (-180 ≤ b.2.2.1 ∧ b.2.2.1 ≤ 180) ∧
              (-90 ≤ b.2.1 ∧ b.2.1 ≤ 90) ∧ (-90 ≤ b.2.2.2 ∧ b.2.2.2 ≤ 90) then
            .ok ⟨errs, st.warnings, ids⟩
          else
            .ok ⟨errs, st.warnings ++ [.outOfRange layer i b], ids⟩

/-- The whole per-layer loop, `i` being the `enumerate` counter. -/
def layerLoop (layer : String) (need : List String) (keyProp : String) :
    Nat → List Feature → LayerState → Except String LayerState
  | _, [], st => .ok st
  | i, ft :: rest, st =>
    match layerStep layer need keyProp i ft st with
    | .error e => .error e
    | .ok st1 => layerLoop layer need keyProp (i + 1) rest st1

/-- One entry of the `mm_bboxes` dict comprehension (lines 94-95):
`ft["properties"]["MicroMarketID"]` and `ft["geometry"]` use bracket
access, so a missing key raises `KeyError` here even though the feature
was already reported and skipped by the per-layer loop. -/
def mmBBoxEntry (ft : Feature) : Except String (String × Option BBox) :=
  match ft.properties with
  | none => .error "KeyError: properties"
  | some props =>
    match rowGet props "MicroMarketID" with
    | none => .error "KeyError: MicroMarketID"
    | some mid =>
      match ft.geometry with
      | none => .error "KeyError: geometry"
      | some g => (bboxE g).map (fun bb => (mid, bb))

def mmBBoxes : List Feature → Except String (List (String × Option BBox))
  | [] => .ok []
  | ft :: rest =>
    match mmBBoxEntry ft with
    | .error e => .error e
    | .ok p => (mmBBoxes rest).map (fun l => p :: l)

/-- `city_bbox` (line 92): bbox of the first city feature's geometry via
bracket access, `None` when the city layer is empty. -/
def cityBBoxE : List Feature → Except String (Option BBox)
  | [] => .ok none
  | ft :: _ =>
    match ft.geometry with
    | none => .error "KeyError: geometry"
    | some g => bboxE g

/-- One iteration of the locality cross-check loop (lines 97-109), over the
running `(errors, warnings)` lists: bracket accesses raise on missing keys,
an unknown micro-market reference is a blocking error, and the two
centroid-containment checks are warnings.  Unpacking a `None` micro-market
bbox in `point_in_bbox` raises `TypeError`. -/
def locCheck (mmB : List (String × Option BBox)) (cityBB : Option BBox) (ft : Feature)
    (st : List VError × List VWarn) : Except String (List VError × List VWarn) :=
  match ft.properties with
  | none => .error "KeyError: properties"
  | some props =>
    match rowGet props "LocalityID" with
    | none => .error "KeyError: LocalityID"
    | some locId =>
      match rowGet props "MicroMarketID" with
      | none => .error "KeyError: MicroMarketID"
      | some mmId =>
        match dictLookupLast mmB mmId with
        | none => .ok (st.1 ++ [.unknownMM locId mmId], st.2)
        | some mmbox =>
          match ft.geometry with
          | none => .error "KeyError: geometry"
          | some g =>
            match bboxE g with
            | .error e => .error e
            | .ok none => .ok st
            | .ok (some bb) =>
              let c : ℚ × ℚ := ((bb.1 + bb.2.2.1) / 2, (bb.2.1 + bb.2.2.2) / 2)
              let w1 : List VWarn :=
                match cityBB with
                | some cb => if inBBox c cb then [] else [.centroidOutsideCity locId]
                | none => []
              match mmbox with
              | none => .error "TypeError: cannot unpack non-iterable NoneType object"
              | some mb =>
                let w2 : List VWarn :=
                  if inBBox c mb then [] else [.centroidOutsideMM locId mmId]
                .ok (st.1, st.2 ++ w1 ++ w2)

def locLoop (mmB : List (String × Option BBox)) (cityBB : Option BBox) :
    List Feature → List VError × List VWarn → Except String (List VError × List VWarn)
  | [], st => .ok st
  | ft :: rest, st =>
    match locCheck mmB cityBB ft st with
    | .error e => .error e
    | .ok st1 => locLoop mmB cityBB rest st1

/-- The three GeoJSON inputs; `none` models a missing file. -/
structure GeoFiles where
  city : Option (List Feature)
  micro : Option (List Feature)
  locs : Option (List Feature)

/-- How a validator run ends: `exit(1)` on missing files, an uncaught
exception (nonzero exit) on a crash, or a normal return (exit 0) with the
collected report. -/
inductive RunOutcome
  | fatalMissing (names : List String)
  | crashed (msg : String)
  | completed (errors : List VError) (warnings : List VWarn)
deriving DecidableEq, Repr

def cityNeed : List String := ["CityID", "CityName"]

def mmNeed : List String := ["MicroMarketID", "CityID", "MicroMarketName"]

def locNeed : List String := ["LocalityID", "MicroMarketID", "CityID", "LocalityName"]

/-- Python `p.endswith(suffix)`. -/
def strEndsWith (s suffix : String) : Bool :=
  List.isPrefixOf suffix.data.reverse s.data.reverse

/-- `key_prop` (line 73): the first required property ending in `ID`.  The
source draws it from a Python set comprehension whose iteration order is
hash-randomised; the model fixes the declaration order of `REQUIRED`,
which for the city layer is the only candidate and for the other two
layers is the declared primary id. -/
def keyPropOf (need : List String) : String :=
  ((need.filter (fun p => strEndsWith p "ID")).headD "")

/-- `main()` of geo_validator.py (lines 48-119): missing files are fatal
before any further check (lines 56-67); then the three per-layer loops,
then the cross-layer pass; a normal return reports the collected errors
and warnings and exits 0. -/
def runValidator (g : GeoFiles) : RunOutcome :=
  let missing :=
    (if g.city.isNone then ["mumbai_city.geojson"] else []) ++
    (if g.micro.isNone then ["mumbai_micro_markets.geojson"] else []) ++
    (if g.locs.isNone then ["mumbai_localities.geojson"] else [])
  match g.city, g.micro, g.locs with
  | some cf, some mf, some lf =>
    match layerLoop "mumbai_city.geojson" cityNeed (keyPropOf cityNeed) 0 cf
        ⟨[], [], ∅⟩ with
    | .error e => .crashed e
    | .ok st1 =>
      match layerLoop "mumbai_micro_markets.geojson" mmNeed (keyPropOf mmNeed) 0 mf
          ⟨st1.errors, st1.warnings, ∅⟩ with
      | .error e => .crashed e
      | .ok st2 =>
        match layerLoop "mumbai_localities.geojson" locNeed (keyPropOf locNeed) 0 lf
            ⟨st2.errors, st2.warnings, ∅⟩ with
        | .error e => .crashed e
        | .ok st3 =>
          match cityBBoxE cf with
          | .error e => .crashed e
          | .ok cbb =>
            match mmBBoxes mf with
            | .error e => .crashed e
            | .ok mmB =>
              match locLoop mmB cbb lf (st3.errors, st3.warnings) with
              | .error e => .crashed e
              | .ok fin => .completed fin.1 fin.2
  | _, _, _ => .fatalMissing missing

/-- Recognise a duplicate-id error. -/
def isDupErr : VError → Bool
  | .dupId _ _ _ => true
  | _ => false

/-- Number of duplicate-id errors in a report. -/
def dupCount (errs : List VError) : Nat := (errs.filter isDupErr).length

/-- The id value each feature of a layer carries under `keyProp`. -/
def featIds (keyProp : String) (feats : List Feature) : List String :=
  feats.map (fun ft => (rowGet (ft.properties.getD []) keyProp).getD "")

/-- A feature carrying every required property. -/
@[reducible] def completeFeat (need : List String) (ft : Feature) : Prop :=
  ∀ p ∈ need, (rowGet (ft.properties.getD []) p).isSome

/-! ## Concrete instances used by the witnesses and counterexamples -/

def c1xOut : KeyOutput := mkOutput 20 "2024-01" "RES" "2" 7 0 5 5 none
  (some 1000000) (some 10000)

def c1wOut : KeyOutput := mkOutput 20 "2024-01" "RES" "3" 9 0 25 25 none
  (some 2000000) (some 50000)

def c2xRow : MetricRow := ⟨some "abc", some "100"⟩

def c3xRow : MetricRow := ⟨some "25", some "0"⟩

def c3xOut : KeyOutput := mkOutput 20 "2024-01" "RES" "1" 3 25 0 0 (some 0) none none

def c3wOut : KeyOutput := mkOutput 20 "2024-02" "RES" "1" 11 20 0 0 (some 500) none none

def c4wOut : KeyOutput := mkOutput 20 "2024-01" "RES" "2" 5 0 30 30 none
  (some 1000000) (some 10000)

def c10wOut : KeyOutput := mkOutput 20 "2024-01" "RES" "2" 4 0 0 25 none none (some 0)

def c5xRow : CsvRow := ⟨"2024-01", "RES", "2", "7", some "25", some ""⟩

def c5xOut : KeyOutput := mkOutput 20 "2024-01" "RES" "2" 7 0 0 25 none none none

def c5wRow : CsvRow := ⟨"2024-03", "RES", "1", "8", some "21", some "15000"⟩

def c5wOut : KeyOutput := mkOutput 20 "2024-03" "RES" "1" 8 0 0 21 none none
  (some 15000)

def c6Input : DimsInput :=
  { bhkRows := [[("code", "2"), ("label", "2 BHK")], [("BHK", "1")]]
    astRows := []
    cityRows := [[("CityID", "13"), ("CityName", "Mumbai")]]
    mmRows := [[("MicroMarketID", "5"), ("MicroMarketName", "Andheri"), ("CityID", "13")]]
    locRows := [[("LocalityID", "7"), ("LocalityName", "X"), ("CityID", "13"),
        ("MicroMarketID", "5")],
      [("LocalityID", "8"), ("LocalityName", "X"), ("CityID", "13"),
        ("MicroMarketID", "9")]] }

def c6Doc : DimsDoc :=
  { bhk := [⟨"1", "1"⟩, ⟨"2", "2 BHK"⟩]
    assets := []
    city := some ⟨13, "Mumbai", (72.8777 : ℚ), (19.0760 : ℚ), 10⟩
    micromarkets := [⟨5, "Andheri", some 13⟩]
    localities := [⟨7, "X", some 13, some 5, some (some "Andheri")⟩,
      ⟨8, "X", some 13, some 9, some none⟩] }

def c7Ft : Feature := ⟨some [("CityName", "X")], none⟩

def c8Feats : List Feature :=
  [⟨some [("CityID", "5"), ("CityName", "A")], none⟩,
   ⟨some [("CityID", "5"), ("CityName", "B")], none⟩,
   ⟨some [("CityID", "5"), ("CityName", "C")], none⟩]


/-- The layer state the loop on `c8Feats` ends in. -/
def c8St : LayerState :=
  ⟨[.dupId "mumbai_city.geojson" "CityID" "5",
    .dupId "mumbai_city.geojson" "CityID" "5"], [], {"5"}⟩

def c9CityFt : Feature :=
  ⟨some [("CityID", "13"), ("CityName", "Mumbai")], some (.point 72 19)⟩

def c9GoodMM : Feature :=
  ⟨some [("MicroMarketID", "1"), ("CityID", "13"), ("MicroMarketName", "MM1")],
    some (.point 72 19)⟩

/-- A micro-market feature whose properties lack `MicroMarketID`. -/
def c9BadMM : Feature :=
  ⟨some [("CityID", "13"), ("MicroMarketName", "MM2")], some (.point 72 19)⟩

def c9Files : GeoFiles := ⟨some [c9CityFt], some [c9GoodMM, c9BadMM], some []⟩

def c9MissingFiles : GeoFiles := ⟨none, some [], some []⟩

/-! ## Theorems -/

/-- Destructuring a successful `processKey` run. -/
theorem processKey_ok {minSample : Int} {month asset bhk locId : String}
    {a r n : Option MetricRow} {out : KeyOutput}
    (h : processKey minSample month asset bhk locId a r n = .ok out) :
    ∃ nA nR nN lid,
      sampleCountE a = .ok nA ∧ sampleCountE r = .ok nR ∧
      sampleCountE n = .ok nN ∧ intE locId = .ok lid ∧
      out = mkOutput minSample month asset bhk lid nA nR nN
        (metricVal a) (metricVal r) (metricVal n) := by
  unfold processKey at h
  rcases ha : sampleCountE a with ea | nA <;> rw [ha] at h
  · exact absurd h (by simp)
  rcases hr : sampleCountE r with er | nR <;> rw [hr] at h
  · exact absurd h (by simp)
  rcases hn : sampleCountE n with en | nN <;> rw [hn] at h
  · exact absurd h (by simp)
  rcases hl : intE locId with el | lid <;> rw [hl] at h
  · exact absurd h (by simp)
  injection h with h
  exact ⟨nA, nR, nN, lid, rfl, rfl, rfl, rfl, h.symm⟩

theorem summaryYieldVal_ne_none_iff (vR vN : Option ℚ) :
    summaryYieldVal vR vN ≠ none ↔
      ∃ pr rn, vR = some pr ∧ 0 < pr ∧ vN = some rn ∧ rn ≠ 0 := by
  cases vR with
  | none => simp [summaryYieldVal]
  | some pr =>
    cases vN with
    | none => simp [summaryYieldVal]
    | some rn =>
      simp only [summaryYieldVal]
      split_ifs with hc
      · exact iff_of_true (Option.some_ne_none _)
          ⟨pr, rn, rfl, hc.2.1, rfl, hc.2.2⟩
      · refine iff_of_false (by simp) ?_
        rintro ⟨p, q, hp, hpos, hq, hne⟩
        rw [Option.some_inj] at hp hq
        subst hp; subst hq
        exact hc ⟨ne_of_gt hpos, hpos, hne⟩

theorem summaryYieldVal_eq_some (vR vN : Option ℚ) (q : ℚ)
    (h : summaryYieldVal vR vN = some q) :
    ∃ pr rn, vR = some pr ∧ vN = some rn ∧ q = 12 * rn / pr := by
  cases vR with
  | none => simp [summaryYieldVal] at h
  | some pr =>
    cases vN with
    | none => simp [summaryYieldVal] at h
    | some rn =>
      simp only [summaryYieldVal] at h
      split_ifs at h
      injection h with h
      exact ⟨pr, rn, rfl, rfl, h.symm⟩

theorem paintIf_eq_some_iff (v : Option ℚ) (cnt ms : Int) (q : ℚ) :
    paintIf v cnt ms = some q ↔ v = some q ∧ q ≠ 0 ∧ cnt ≥ ms := by
  cases v with
  | none => simp [paintIf]
  | some p =>
    simp only [paintIf]
    split_ifs with hc
    · constructor
      · intro h; injection h with h; subst h; exact ⟨rfl, hc.1, hc.2⟩
      · rintro ⟨h1, -, -⟩; rw [Option.some_inj] at h1; rw [h1]
    · refine iff_of_false (by simp) ?_
      rintro ⟨h1, h2, h3⟩
      rw [Option.some_inj] at h1
      subst h1
      exact hc ⟨h2, h3⟩

theorem yieldPaintVal_eq_some_iff (vR vN : Option ℚ) (nR nN ms : Int) (q : ℚ) :
    yieldPaintVal vR vN nR nN ms = some q ↔
      ∃ pr rn, vR = some pr ∧ vN = some rn ∧ 0 < pr ∧ rn ≠ 0 ∧
        nR ≥ ms ∧ nN ≥ ms ∧ q = 12 * rn / pr := by
  cases vR with
  | none => simp [yieldPaintVal]
  | some pr =>
    cases vN with
    | none => simp [yieldPaintVal]
    | some rn =>
      simp only [yieldPaintVal]
      split_ifs with hc
      · constructor
        · intro h; injection h with h
          exact ⟨pr, rn, rfl, rfl, hc.2.1, hc.2.2.1, hc.2.2.2.1, hc.2.2.2.2, h.symm⟩
        · rintro ⟨p, w, hp, hw, -, -, -, -, hq⟩
          rw [Option.some_inj] at hp hw
          subst hp; subst hw; rw [hq]
      · refine iff_of_false (by simp) ?_
        rintro ⟨p, w, hp, hw, hpos, hne, h1, h2, -⟩
        rw [Option.some_inj] at hp hw
        subst hp; subst hw
        exact hc ⟨ne_of_gt hpos, hpos, hne, h1, h2⟩

/-- **C1** (corrected).  For every key the aggregator processes, the
emitted summary's `yield` is non-null exactly when the registered price is
present and strictly positive and the rent value is present and nonzero;
the sample counts are not consulted for the summary yield (they gate only
the choropleth yield point).  When non-null it equals
`12 * median_rent / median_registered`. -/
theorem c1_summary_yield_condition (minSample : Int) (month asset bhk locId : String)
    (a r n : Option MetricRow) (out : KeyOutput)
    (h : processKey minSample month asset bhk locId a r n = .ok out) :
    (out.summary.yld ≠ none ↔
      ∃ pr rn, metricVal r = some pr ∧ 0 < pr ∧ metricVal n = some rn ∧ rn ≠ 0) ∧
    (∀ q, out.summary.yld = some q →
      ∃ pr rn, metricVal r = some pr ∧ metricVal n = some rn ∧ q = 12 * rn / pr) := by
  obtain ⟨nA, nR, nN, lid, -, -, -, -, rfl⟩ := processKey_ok h
  exact ⟨summaryYieldVal_ne_none_iff (metricVal r) (metricVal n),
    fun q => summaryYieldVal_eq_some (metricVal r) (metricVal n) q⟩

/-- **C1** witness: a concrete key (registered 2,000,000, rent 50,000,
both samples 25 ≥ 20) run through the amended theorem. -/
theorem c1_witness :
    processKey 20 "2024-01" "RES" "3" "9" none (some ⟨some "25", some "2000000"⟩)
      (some ⟨some "25", some "50000"⟩) = .ok c1wOut ∧
    (c1wOut.summary.yld ≠ none ↔
      ∃ pr rn, metricVal (some ⟨some "25", some "2000000"⟩) = some pr ∧ 0 < pr ∧
        metricVal (some ⟨some "25", some "50000"⟩) = some rn ∧ rn ≠ 0) :=
  ⟨by rfl,
   (c1_summary_yield_condition 20 "2024-01" "RES" "3" "9" none
      (some ⟨some "25", some "2000000"⟩) (some ⟨some "25", some "50000"⟩)
      c1wOut (by rfl)).1⟩

/-- **C1** counterexample: registered 1,000,000 and rent 10,000 with both
sample counts 5 < 20 = `min_sample` still produce a non-null summary yield
0.12; the claim requires the summary yield to be null whenever a sample
count is below the threshold. -/
theorem c1_counterexample :
    processKey 20 "2024-01" "RES" "2" "7" none (some ⟨some "5", some "1000000"⟩)
      (some ⟨some "5", some "10000"⟩) = .ok c1xOut ∧
    c1xOut.summary.yld = some (0.12 : ℚ) ∧
    c1xOut.summary.countRegistered = 5 ∧ c1xOut.summary.countRent = 5 ∧
    ¬ (c1xOut.summary.yld ≠ none → c1xOut.summary.countRegistered ≥ 20) := by
  refine ⟨by rfl, ?_, by rfl, by rfl, fun hcl => absurd (hcl (by decide)) (by decide)⟩
  show summaryYieldVal (some 1000000) (some 10000) = some (0.12 : ℚ)
  rw [summaryYieldVal, if_pos (by norm_num)]
  norm_num

/-- **C2** (corrected).  Sample-size fields that are absent or empty parse
to 0 without raising; value fields never abort (absent / unparseable /
non-finite all give null); and the only way the per-key body aborts is an
`int()` `ValueError` on a sample-size or locality-id field.  Contrary to
the original claim, a present, nonempty, unparseable `SampleSize` does
raise and aborts the aggregator. -/
theorem c2_parse_leniency :
    (sampleCountE none = .ok 0) ∧
    (∀ row : MetricRow, row.sampleSize = none ∨ row.sampleSize = some "" →
      sampleCountE (some row) = .ok 0) ∧
    (∀ row : MetricRow, ∀ s, row.sampleSize = some s → s ≠ "" → pyInt? s = none →
      sampleCountE (some row) = .error ("ValueError: invalid literal for int: " ++ s)) ∧
    (f2 none = none) ∧
    (∀ s, pyFloatFinite? s = none → f2 (some s) = none) ∧
    (∀ (minSample : Int) (month asset bhk locId : String) (a r n : Option MetricRow)
        (e : String),
      processKey minSample month asset bhk locId a r n = .error e →
      sampleCountE a = .error e ∨ sampleCountE r = .error e ∨
        sampleCountE n = .error e ∨ intE locId = .error e) := by
  refine ⟨rfl, ?_, ?_, rfl, ?_, ?_⟩
  · rintro row (h | h) <;> simp [sampleCountE, h]
  · rintro row s h hne hp
    simp [sampleCountE, h, hne, hp]
  · intro s h
    simp [f2, h]
  · intro ms m as b l a r n e h
    unfold processKey at h
    rcases ha : sampleCountE a with ea | nA <;> rw [ha] at h
    · simp only [Except.error.injEq] at h
      exact Or.inl (by rw [h])
    rcases hr : sampleCountE r with er | nR <;> rw [hr] at h
    · simp only [Except.error.injEq] at h
      exact Or.inr (Or.inl (by rw [h]))
    rcases hn : sampleCountE n with en | nN <;> rw [hn] at h
    · simp only [Except.error.injEq] at h
      exact Or.inr (Or.inr (Or.inl (by rw [h])))
    rcases hl : intE l with el | lid <;> rw [hl] at h
    · simp only [Except.error.injEq] at h
      exact Or.inr (Or.inr (Or.inr (by rw [h])))
    · exact absurd h (by simp)

/-- **C2** witness: the amended theorem applied at concrete fields. -/
theorem c2_witness :
    sampleCountE (some ⟨none, some "12"⟩) = .ok 0 ∧
    sampleCountE (some ⟨some "", none⟩) = .ok 0 ∧
    sampleCountE (some c2xRow) = .error "ValueError: invalid literal for int: abc" ∧
    f2 (some "not-a-number") = none :=
  ⟨c2_parse_leniency.2.1 ⟨none, some "12"⟩ (Or.inl rfl),
   c2_parse_leniency.2.1 ⟨some "", none⟩ (Or.inr rfl),
   c2_parse_leniency.2.2.1 c2xRow "abc" rfl (by decide) (by rfl),
   c2_parse_leniency.2.2.2.2.1 "not-a-number" (by rfl)⟩

/-- **C2** counterexample: a metric row whose `SampleSize` is the nonempty
unparseable string "abc" aborts the whole aggregator run with
`ValueError`, while the claim says it must degrade to 0 without error. -/
theorem c2_counterexample :
    processKey 20 "2024-01" "RES" "2" "7" (some c2xRow) none none =
      .error "ValueError: invalid literal for int: abc" ∧
    sampleCountE (some c2xRow) ≠ .ok 0 :=
  ⟨by rfl, by decide⟩

/-- **C3** (corrected).  For each of the four metrics a choropleth point
with value `q` is emitted for a key if and only if the metric value parsed
to exactly `q`, `q` is nonzero (Python truthiness — the original claim's
"present" is not enough), and the relevant sample count(s) reach
`min_sample`, the threshold being inclusive (`≥`); yield additionally
requires the registered price to be strictly positive and its value is
`12 * rent / registered`. -/
theorem c3_paint_gate (minSample : Int) (month asset bhk locId : String)
    (a r n : Option MetricRow) (out : KeyOutput)
    (h : processKey minSample month asset bhk locId a r n = .ok out) :
    (∀ q, out.askingPoint = some q ↔
      metricVal a = some q ∧ q ≠ 0 ∧ out.summary.countAsking ≥ minSample) ∧
    (∀ q, out.registeredPoint = some q ↔
      metricVal r = some q ∧ q ≠ 0 ∧ out.summary.countRegistered ≥ minSample) ∧
    (∀ q, out.rentPoint = some q ↔
      metricVal n = some q ∧ q ≠ 0 ∧ out.summary.countRent ≥ minSample) ∧
    (∀ q, out.yieldPoint = some q ↔
      ∃ pr rn, metricVal r = some pr ∧ metricVal n = some rn ∧ 0 < pr ∧ rn ≠ 0 ∧
        out.summary.countRegistered ≥ minSample ∧
        out.summary.countRent ≥ minSample ∧ q = 12 * rn / pr) := by
  obtain ⟨nA, nR, nN, lid, -, -, -, -, rfl⟩ := processKey_ok h
  exact ⟨fun q => paintIf_eq_some_iff (metricVal a) nA minSample q,
    fun q => paintIf_eq_some_iff (metricVal r) nR minSample q,
    fun q => paintIf_eq_some_iff (metricVal n) nN minSample q,
    fun q => yieldPaintVal_eq_some_iff (metricVal r) (metricVal n) nR nN minSample q⟩

/-- **C3** witness: a sample count of exactly `min_sample = 20` is
inclusive — the asking point is emitted. -/
theorem c3_witness :
    processKey 20 "2024-02" "RES" "1" "11" (some ⟨some "20", some "500"⟩) none none =
      .ok c3wOut ∧
    c3wOut.askingPoint = some 500 ∧
    (c3wOut.askingPoint = some 500 ↔
      metricVal (some ⟨some "20", some "500"⟩) = some 500 ∧ (500 : ℚ) ≠ 0 ∧
        c3wOut.summary.countAsking ≥ 20) :=
  ⟨by rfl, by decide,
   (c3_paint_gate 20 "2024-02" "RES" "1" "11" (some ⟨some "20", some "500"⟩)
     none none c3wOut (by rfl)).1 500⟩

/-- **C3** counterexample: an asking price that parses to exactly 0 with a
qualifying sample count (25 ≥ 20) emits no asking point, refuting the
claimed "present and count qualifies" if-and-only-if. -/
theorem c3_counterexample :
    processKey 20 "2024-01" "RES" "1" "3" (some c3xRow) none none = .ok c3xOut ∧
    metricVal (some c3xRow) = some 0 ∧
    c3xOut.summary.countAsking = 25 ∧
    c3xOut.askingPoint = none ∧
    ¬ (c3xOut.askingPoint ≠ none ↔
        (metricVal (some c3xRow)).isSome = true ∧ c3xOut.summary.countAsking ≥ 20) :=
  ⟨by rfl, by decide, by rfl, by decide, by decide⟩

/-- **C4** (confirmed).  Every yield the aggregator emits — as a
choropleth point or as a summary field — equals
`12 × median_monthly_rent / median_registered_price`. -/
theorem c4_yield_formula (minSample : Int) (month asset bhk locId : String)
    (a r n : Option MetricRow) (out : KeyOutput)
    (h : processKey minSample month asset bhk locId a r n = .ok out) :
    (∀ q, out.yieldPoint = some q →
      ∃ pr rn, metricVal r = some pr ∧ metricVal n = some rn ∧ q = 12 * rn / pr) ∧
    (∀ q, out.summary.yld = some q →
      ∃ pr rn, metricVal r = some pr ∧ metricVal n = some rn ∧ q = 12 * rn / pr) := by
  obtain ⟨nA, nR, nN, lid, -, -, -, -, rfl⟩ := processKey_ok h
  constructor
  · intro q hq
    obtain ⟨pr, rn, h1, h2, -, -, -, -, h3⟩ :=
      (yieldPaintVal_eq_some_iff (metricVal r) (metricVal n) nR nN minSample q).mp hq
    exact ⟨pr, rn, h1, h2, h3⟩
  · exact fun q => summaryYieldVal_eq_some (metricVal r) (metricVal n) q

/-- **C4** witness: registered 1,000,000 and rent 10,000 with both sample
counts 30 ≥ 20 give yield exactly `12 × 10000 / 1000000 = 0.12`, in both
the paint point and the summary. -/
theorem c4_witness :
    processKey 20 "2024-01" "RES" "2" "5" none (some ⟨some "30", some "1000000"⟩)
      (some ⟨some "30", some "10000"⟩) = .ok c4wOut ∧
    c4wOut.yieldPoint = some (0.12 : ℚ) ∧
    c4wOut.summary.yld = some (0.12 : ℚ) ∧
    (∀ q, c4wOut.yieldPoint = some q →
      ∃ pr rn, metricVal (some ⟨some "30", some "1000000"⟩) = some pr ∧
        metricVal (some ⟨some "30", some "10000"⟩) = some rn ∧ q = 12 * rn / pr) := by
  refine ⟨by rfl, ?_, ?_, (c4_yield_formula 20 "2024-01" "RES" "2" "5" none
    (some ⟨some "30", some "1000000"⟩) (some ⟨some "30", some "10000"⟩) c4wOut
    (by rfl)).1⟩
  · show yieldPaintVal (some 1000000) (some 10000) 30 30 20 = some (0.12 : ℚ)
    rw [yieldPaintVal, if_pos (by norm_num)]
    norm_num
  · show summaryYieldVal (some 1000000) (some 10000) = some (0.12 : ℚ)
    rw [summaryYieldVal, if_pos (by norm_num)]
    norm_num

/-- **C10** (confirmed).  A metric value parsing to exactly 0 is never
emitted as a choropleth point even when its sample count qualifies; a rent
of 0 disables yield in both the paint and the summary; yet the 0 itself is
still recorded in the summary's median fields (which always carry the
parsed values verbatim). -/
theorem c10_zero_values (minSample : Int) (month asset bhk locId : String)
    (a r n : Option MetricRow) (out : KeyOutput)
    (h : processKey minSample month asset bhk locId a r n = .ok out) :
    (metricVal a = some 0 → out.askingPoint = none) ∧
    (metricVal r = some 0 → out.registeredPoint = none) ∧
    (metricVal n = some 0 →
      out.rentPoint = none ∧ out.yieldPoint = none ∧ out.summary.yld = none) ∧
    out.summary.medianAsking = metricVal a ∧
    out.summary.medianRegistered = metricVal r ∧
    out.summary.medianRent = metricVal n := by
  obtain ⟨nA, nR, nN, lid, -, -, -, -, rfl⟩ := processKey_ok h
  refine ⟨?_, ?_, ?_, rfl, rfl, rfl⟩
  · intro hz
    show paintIf (metricVal a) nA minSample = none
    rw [hz]; simp [paintIf]
  · intro hz
    show paintIf (metricVal r) nR minSample = none
    rw [hz]; simp [paintIf]
  · intro hz
    refine ⟨?_, ?_, ?_⟩
    · show paintIf (metricVal n) nN minSample = none
      rw [hz]; simp [paintIf]
    · show yieldPaintVal (metricVal r) (metricVal n) nR nN minSample = none
      rw [hz]; cases metricVal r <;> simp [yieldPaintVal]
    · show summaryYieldVal (metricVal r) (metricVal n) = none
      rw [hz]; cases metricVal r <;> simp [summaryYieldVal]

/-- **C10** witness: a rent parsing to 0 with sample 25 ≥ 20 — no rent
point, no yield anywhere, but `median_rent = 0` recorded. -/
theorem c10_witness :
    processKey 20 "2024-01" "RES" "2" "4" none none (some ⟨some "25", some "0"⟩) =
      .ok c10wOut ∧
    (c10wOut.rentPoint = none ∧ c10wOut.yieldPoint = none ∧
      c10wOut.summary.yld = none) ∧
    c10wOut.summary.medianRent = metricVal (some ⟨some "25", some "0"⟩) ∧
    c10wOut.summary.medianRent = some 0 :=
  ⟨by rfl,
   (c10_zero_values 20 "2024-01" "RES" "2" "4" none none
     (some ⟨some "25", some "0"⟩) c10wOut (by rfl)).2.2.1 (by decide),
   (c10_zero_values 20 "2024-01" "RES" "2" "4" none none
     (some ⟨some "25", some "0"⟩) c10wOut (by rfl)).2.2.2.2.2,
   by decide⟩

/-- **C5** (corrected).  The aggregator processes the union of keys of the
three metric dicts, and for a key present only in the rent CSV it still
emits a summary with null asking / registered / yield, emits no asking,
registered or yield point, and emits a rent point exactly when the rent
value is present AND nonzero and its sample count qualifies (the original
claim omitted the value condition). -/
theorem c5_rent_only_key (minSample : Int) (ask reg rent : List CsvRow) (k : MKey)
    (row : CsvRow) (out : KeyOutput)
    (hA : mapLookup ask k = none) (hR : mapLookup reg k = none)
    (hN : mapLookup rent k = some row)
    (h : aggregateKey minSample ask reg rent k = .ok out) :
    k ∈ unionKeys ask reg rent ∧
    out.summary.medianAsking = none ∧ out.summary.medianRegistered = none ∧
    out.summary.yld = none ∧
    out.askingPoint = none ∧ out.registeredPoint = none ∧ out.yieldPoint = none ∧
    (out.rentPoint ≠ none ↔
      (∃ q, f2 row.value = some q ∧ q ≠ 0) ∧ out.summary.countRent ≥ minSample) := by
  have hmem : row ∈ rent := by
    have h1 := List.mem_of_find?_eq_some hN
    simpa using h1
  have hkey : toKey row = k := by
    have h1 := List.find?_some hN
    simpa using h1
  unfold aggregateKey at h
  rw [hA, hR, hN] at h
  obtain ⟨nA, nR, nN, lid, -, -, -, -, rfl⟩ := processKey_ok h
  refine ⟨?_, rfl, rfl, rfl, rfl, rfl, ?_, ?_⟩
  · unfold unionKeys
    rw [List.mem_dedup]
    exact List.mem_map.mpr ⟨row, by simp [hmem], hkey⟩
  · show yieldPaintVal (metricVal none) (metricVal (some (toMetricRow row)))
      nR nN minSample = none
    rfl
  · show paintIf (metricVal (some (toMetricRow row))) nN minSample ≠ none ↔
      (∃ q, f2 row.value = some q ∧ q ≠ 0) ∧ nN ≥ minSample
    have hv : metricVal (some (toMetricRow row)) = f2 row.value := rfl
    rw [hv]
    cases hf : f2 row.value with
    | none => simp [paintIf]
    | some q =>
      simp only [paintIf]
      split_ifs with hc
      · exact iff_of_true (Option.some_ne_none _) ⟨⟨q, rfl, hc.1⟩, hc.2⟩
      · refine iff_of_false (by simp) ?_
        rintro ⟨⟨p, hp, hpne⟩, hcnt⟩
        rw [Option.some_inj] at hp
        subst hp
        exact hc ⟨hpne, hcnt⟩

/-- **C5** witness: a key present only in the rent CSV with rent 15,000
and sample 21 ≥ 20 — summary emitted with nulls, no asking / registered /
yield point, and the rent point is emitted. -/
theorem c5_witness :
    aggregateKey 20 [] [] [c5wRow] (toKey c5wRow) = .ok c5wOut ∧
    (toKey c5wRow ∈ unionKeys [] [] [c5wRow] ∧
      c5wOut.summary.medianAsking = none ∧ c5wOut.summary.medianRegistered = none ∧
      c5wOut.summary.yld = none ∧
      c5wOut.askingPoint = none ∧ c5wOut.registeredPoint = none ∧
      c5wOut.yieldPoint = none ∧
      (c5wOut.rentPoint ≠ none ↔
        (∃ q, f2 c5wRow.value = some q ∧ q ≠ 0) ∧
          c5wOut.summary.countRent ≥ 20)) ∧
    c5wOut.rentPoint = some 15000 :=
  ⟨by rfl,
   c5_rent_only_key 20 [] [] [c5wRow] (toKey c5wRow) c5wRow c5wOut
     (by rfl) (by rfl) (by rfl) (by rfl),
   by decide⟩

/-- **C5** counterexample: a rent-only key whose rent value field is the
empty string but whose sample count 25 qualifies emits NO rent point,
refuting "a rent point is emitted exactly when its sample count
qualifies". -/
theorem c5_counterexample :
    aggregateKey 20 [] [] [c5xRow] (toKey c5xRow) = .ok c5xOut ∧
    c5xOut.summary.countRent = 25 ∧
    c5xOut.rentPoint = none ∧
    ¬ (c5xOut.rentPoint ≠ none ↔ c5xOut.summary.countRent ≥ 20) :=
  ⟨by rfl, by rfl, by decide, by decide⟩


theorem charListLt_irrefl : ∀ a : List Char, ¬ charListLt a a := by
  intro a
  induction a with
  | nil => exact fun h => h
  | cons c cs ih =>
    intro h
    rcases h with h | ⟨-, h⟩
    · exact lt_irrefl c h
    · exact ih h

theorem charListLt_asymm : ∀ a b : List Char, charListLt a b → ¬ charListLt b a := by
  intro a
  induction a with
  | nil =>
    intro b h1 h2
    cases b with
    | nil => exact h1
    | cons d ds => exact h2
  | cons c cs ih =>
    intro b h1 h2
    cases b with
    | nil => exact h1
    | cons d ds =>
      rcases h1 with h1 | ⟨he1, h1⟩
      · rcases h2 with h2 | ⟨he2, h2⟩
        · exact absurd h2 (lt_asymm h1)
        · rw [he2] at h1
          exact lt_irrefl _ h1
      · rcases h2 with h2 | ⟨he2, h2⟩
        · rw [he1] at h2
          exact lt_irrefl _ h2
        · exact ih ds h1 h2

/-- Uniqueness of stable sorting: under an irreflexive, asymmetric strict
key order, any two stable sorts of one list are equal — the mathematical
core of the builder's determinism. -/
theorem stableSort_unique {α K : Type} (klt : K → K → Prop) (key : α → K) (dflt : α)
    (l o₁ o₂ : List α)
    (hirr : ∀ a, ¬ klt a a) (hasym : ∀ a b, klt a b → ¬ klt b a)
    (h1 : IsStableSortBy klt key dflt l o₁) (h2 : IsStableSortBy klt key dflt l o₂) :
    o₁ = o₂ := by
  obtain ⟨i1, p1, s1, e1⟩ := h1
  obtain ⟨i2, p2, s2, e2⟩ := h2
  have hanti : ∀ i j, stRel klt key dflt l i j → stRel klt key dflt l j i → i = j := by
    intro i j hij hji
    rcases hij with hlt | ⟨heq, hij⟩
    · rcases hji with hlt2 | ⟨heq2, hji⟩
      · exact absurd hlt2 (hasym _ _ hlt)
      · rw [← heq2] at hlt
        exact absurd hlt (hirr _)
    · rcases hji with hlt2 | ⟨heq2, hji⟩
      · rw [← heq] at hlt2
        exact absurd hlt2 (hirr _)
      · omega
  haveI : IsAntisymm Nat (stRel klt key dflt l) := ⟨hanti⟩
  have hperm : i1.Perm i2 := p1.trans p2.symm
  have hidx : i1 = i2 := List.eq_of_perm_of_sorted hperm s1 s2
  rw [e1, e2, hidx]

/-- **C6** (confirmed).  The dimension builder is a deterministic function
of its parsed inputs: any two outputs of a `BuildsDims` run on the same
input coincide, so any serialization of them — in particular the
`json.dump` bytes of `dims.json` — is byte-identical.  The output has no
wall-clock or random field, and the only under-determined steps of the
source, the four `list.sort` calls, are pinned down by CPython's
sorted-and-stable guarantee, whose uniqueness is `stableSort_unique`. -/
theorem c6_dims_deterministic (inp : DimsInput) (o₁ o₂ : DimsDoc)
    (h1 : BuildsDims inp o₁) (h2 : BuildsDims inp o₂) :
    o₁ = o₂ ∧ ∀ emit : DimsDoc → String, emit o₁ = emit o₂ := by
  obtain ⟨hb1, ha1, hc1, hm1, hl1⟩ := h1
  obtain ⟨hb2, ha2, hc2, hm2, hl2⟩ := h2
  have hstrIrr : ∀ a : List Char, ¬ strLt a a := charListLt_irrefl
  have hstrAsym : ∀ a b : List Char, strLt a b → ¬ strLt b a := charListLt_asymm
  have hpairIrr : ∀ a : Int × List Char, ¬ pairLt a a := by
    rintro a (h | ⟨-, h⟩)
    · exact lt_irrefl _ h
    · exact charListLt_irrefl _ h
  have hpairAsym : ∀ a b : Int × List Char, pairLt a b → ¬ pairLt b a := by
    rintro a b (h1 | ⟨he1, h1⟩) (h2 | ⟨he2, h2⟩)
    · exact absurd h2 (lt_asymm h1)
    · rw [he2] at h1
      exact absurd h1 (lt_irrefl _)
    · rw [he1] at h2
      exact absurd h2 (lt_irrefl _)
    · exact absurd h2 (charListLt_asymm _ _ h1)
  have e1 : o₁.bhk = o₂.bhk :=
    stableSort_unique strLt codeSortKey ⟨"", ""⟩ _ _ _ hstrIrr hstrAsym hb1 hb2
  have e2 : o₁.assets = o₂.assets :=
    stableSort_unique strLt codeSortKey ⟨"", ""⟩ _ _ _ hstrIrr hstrAsym ha1 ha2
  have e3 : o₁.city = o₂.city := hc1.trans hc2.symm
  have e4 : o₁.micromarkets = o₂.micromarkets :=
    stableSort_unique pairLt mmSortKey ⟨0, "", none⟩ _ _ _ hpairIrr hpairAsym hm1 hm2
  have e5 : o₁.localities = o₂.localities :=
    stableSort_unique pairLt locSortKey ⟨0, "", none, none, none⟩ _ _ _
      hpairIrr hpairAsym hl1 hl2
  have heq : o₁ = o₂ := by
    cases o₁
    cases o₂
    simp_all
  exact ⟨heq, fun emit => congrArg emit heq⟩

/-- **C6** witness: a concrete five-table input (with an alias-resolved
BHK code, a tied locality sort key exercising stability, and a dangling
micro-market reference) built to its unique output document. -/
theorem c6_witness : BuildsDims c6Input c6Doc ∧ c6Doc = c6Doc := by
  have h : BuildsDims c6Input c6Doc := by
    refine ⟨⟨[1, 0], ?_, ?_, ?_⟩, ⟨[], ?_, ?_, ?_⟩, ?_, ⟨[0], ?_, ?_, ?_⟩,
      ⟨[0, 1], ?_, ?_, ?_⟩⟩
    · decide
    · decide
    · rfl
    · decide
    · decide
    · rfl
    · rfl
    · decide
    · decide
    · rfl
    · decide
    · decide
    · rfl
  exact ⟨h, (c6_dims_deterministic c6Input c6Doc c6Doc h h).1⟩


/-- **C7** (confirmed).  A feature missing any required property is
reported as exactly one blocking error and skipped: the warnings are
untouched and — decisively — the layer's uniqueness set `ids` is left
unchanged, so its id (if any) is not registered and a later feature
reusing that id is not flagged as a duplicate of it. -/
theorem c7_missing_prop_skipped (layer : String) (need : List String)
    (keyProp : String) (i : Nat) (ft : Feature) (st : LayerState)
    (hmiss : need.filter (fun p => (rowGet (ft.properties.getD []) p).isNone) ≠ []) :
    layerStep layer need keyProp i ft st =
      .ok ⟨st.errors ++
          [.missingProps layer i
            (need.filter (fun p => (rowGet (ft.properties.getD []) p).isNone))],
        st.warnings, st.ids⟩ := by
  unfold layerStep
  rw [if_pos hmiss]

/-- **C7** witness: a city feature carrying only `CityName`. -/
theorem c7_witness :
    (cityNeed.filter (fun p => (rowGet (c7Ft.properties.getD []) p).isNone) ≠ []) ∧
    layerStep "mumbai_city.geojson" cityNeed "CityID" 0 c7Ft ⟨[], [], ∅⟩ =
      .ok ⟨[.missingProps "mumbai_city.geojson" 0 ["CityID"]], [], ∅⟩ :=
  ⟨by decide,
   by simpa using
     c7_missing_prop_skipped "mumbai_city.geojson" cityNeed "CityID" 0 c7Ft
       ⟨[], [], ∅⟩ (by decide)⟩

theorem layerStep_complete (layer : String) (need : List String) (keyProp : String)
    (i : Nat) (ft : Feature) (st st' : LayerState)
    (hcomp : completeFeat need ft) (hkey : keyProp ∈ need)
    (h : layerStep layer need keyProp i ft st = .ok st') :
    st'.errors = (if (rowGet (ft.properties.getD []) keyProp).getD "" ∈ st.ids
        then st.errors ++
          [.dupId layer keyProp ((rowGet (ft.properties.getD []) keyProp).getD "")]
        else st.errors) ∧
    st'.ids = insert ((rowGet (ft.properties.getD []) keyProp).getD "") st.ids := by
  have hmiss : need.filter (fun p => (rowGet (ft.properties.getD []) p).isNone) = [] := by
    rw [List.filter_eq_nil_iff]
    intro p hp
    simp only [Bool.not_eq_true, Option.isNone_eq_false_iff]
    exact hcomp p hp
  obtain ⟨v, hv⟩ := Option.isSome_iff_exists.mp (hcomp keyProp hkey)
  unfold layerStep at h
  rw [if_neg (by simp [hmiss]), hv] at h
  rw [hv]
  simp only [Option.getD_some]
  dsimp only at h
  split at h
  all_goals try split at h
  all_goals try split at h
  all_goals first
    | (injection h with h; subst h; refine ⟨?_, rfl⟩;
       first
         | rfl
         | rw [if_pos (by assumption)]
         | rw [if_neg (by assumption)])
    | injection h

theorem layerLoop_dup_arith (layer : String) (need : List String) (keyProp : String)
    (feats : List Feature) :
    ∀ (i : Nat) (st st' : LayerState),
    (∀ ft ∈ feats, completeFeat need ft) → keyProp ∈ need →
    layerLoop layer need keyProp i feats st = .ok st' →
    dupCount st'.errors + ((featIds keyProp feats).toFinset \ st.ids).card =
      dupCount st.errors + feats.length := by
  induction feats with
  | nil =>
    intro i st st' hcomp hkey h
    injection h with h
    subst h
    simp [featIds]
  | cons ft rest ih =>
    intro i st st' hcomp hkey h
    unfold layerLoop at h
    cases hs : layerStep layer need keyProp i ft st with
    | error e =>
      rw [hs] at h
      exact absurd h (by simp)
    | ok st1 =>
      rw [hs] at h
      obtain ⟨he, hi⟩ :=
        layerStep_complete layer need keyProp i ft st st1
          (hcomp ft (by simp)) hkey hs
      have hrec := ih (i + 1) st1 st' (fun f hf => hcomp f (by simp [hf])) hkey h
      set v := (rowGet (ft.properties.getD []) keyProp).getD "" with hvdef
      have hfe : featIds keyProp (ft :: rest) = v :: featIds keyProp rest := rfl
      rw [hfe, List.toFinset_cons, List.length_cons]
      by_cases hv : v ∈ st.ids
      · rw [Finset.insert_sdiff_of_mem _ hv]
        rw [hi, Finset.insert_eq_self.mpr hv] at hrec
        rw [he, if_pos hv] at hrec
        have hd : dupCount (st.errors ++ [VError.dupId layer keyProp v]) =
            dupCount st.errors + 1 := by
          simp [dupCount, List.filter_append, isDupErr]
        rw [hd] at hrec
        omega
      · rw [Finset.insert_sdiff_of_not_mem _ hv]
        rw [hi, Finset.sdiff_insert] at hrec
        rw [he, if_neg hv] at hrec
        set X := (featIds keyProp rest).toFinset \ st.ids with hX
        have hcard : (insert v X).card = (X.erase v).card + 1 := by
          by_cases hvX : v ∈ X
          · rw [Finset.insert_eq_self.mpr hvX, ← Finset.card_erase_add_one hvX]
          · rw [Finset.card_insert_of_not_mem hvX, Finset.erase_eq_of_not_mem hvX]
        omega

/-- **C8** (confirmed).  For a layer whose features all carry the required
properties, the per-layer loop reports exactly one duplicate-id error per
occurrence beyond the first of each id value: the number of duplicate
errors added equals the number of features minus the number of distinct
ids (stated additively), e.g. an id appearing three times yields exactly
two duplicate errors. -/
theorem c8_duplicate_errors (layer : String) (need : List String) (keyProp : String)
    (feats : List Feature) (errs0 : List VError) (warns0 : List VWarn)
    (st' : LayerState)
    (hcomp : ∀ ft ∈ feats, completeFeat need ft) (hkey : keyProp ∈ need)
    (h : layerLoop layer need keyProp 0 feats ⟨errs0, warns0, ∅⟩ = .ok st') :
    dupCount st'.errors + (featIds keyProp feats).toFinset.card =
      dupCount errs0 + feats.length := by
  have := layerLoop_dup_arith layer need keyProp feats 0 ⟨errs0, warns0, ∅⟩ st'
    hcomp hkey h
  simpa using this

/-- **C8** witness: three prop-complete city features sharing `CityID = 5`
produce exactly two duplicate errors (2 + 1 distinct id = 3 features). -/
theorem c8_witness :
    layerLoop "mumbai_city.geojson" cityNeed "CityID" 0 c8Feats ⟨[], [], ∅⟩ =
      .ok c8St ∧
    dupCount c8St.errors + (featIds "CityID" c8Feats).toFinset.card =
      dupCount [] + c8Feats.length ∧
    dupCount c8St.errors = 2 :=
  ⟨by decide,
   c8_duplicate_errors "mumbai_city.geojson" cityNeed "CityID" c8Feats [] [] c8St
     (by decide) (by decide) (by decide),
   by decide⟩

/-- **C9** (code bug).  The first half of the claim holds: a missing input
file makes the run exit nonzero before any per-feature check.  But the
second half fails: with all three files present, a micro-market feature
missing `MicroMarketID` is duly reported (and skipped) by the per-layer
loop — third conjunct — yet the cross-layer pass then evaluates
`ft["properties"]["MicroMarketID"]` over ALL features (line 94) and
raises an uncaught `KeyError`, aborting the run with a nonzero exit
instead of completing with exit 0. -/
theorem c9_validator_crash_bug :
    runValidator c9MissingFiles = .fatalMissing ["mumbai_city.geojson"] ∧
    runValidator c9Files = .crashed "KeyError: MicroMarketID" ∧
    layerLoop "mumbai_micro_markets.geojson" mmNeed (keyPropOf mmNeed) 0
      [c9GoodMM, c9BadMM] ⟨[], [], ∅⟩ =
      .ok ⟨[.missingProps "mumbai_micro_markets.geojson" 1 ["MicroMarketID"]], [],
        {"1"}⟩ :=
  ⟨by decide, by decide, by decide⟩

end SqyPoc
